import Mathlib

/-!
Verification development for the TAVAnet repository (VANET adaptive
transmit-power / data-rate control).  The definitions below are shallow
embeddings of the Python sources `src/filePakGalih/PPO.py` and
`src/server.py`; numeric values are modelled as exact rationals (all the
float literals in the sources are decimally exact) and, where a real cube
root is involved, as real numbers.  Fallible Python operations (KeyError,
IndexError on invalid indexing, AttributeError on unset attributes) are
modelled with `Except`/`Option` results.
-/

/-- A Python value appearing in an MCS-table lookup result: a string,
a number, or Python `None`. -/
inductive PyVal where
  | str (s : String)
  | num (q : ℚ)
  | none
deriving DecidableEq, Repr

/-- One row of a bandwidth-adaptive MCS table in `mcs_tables`
(`PPO.py` lines 42-94): `(idx, mod, entry[2], entry[3], further columns)`.
Only `entry[2]` (20 MHz column) and `entry[3]` (next wider column) are ever
read by `get_modulation_and_datarate`; the remaining columns of the
802.11ac rows are kept in `rest`. -/
structure AdaptEntry where
  idx : Nat
  mod : String
  r20 : PyVal
  r40 : PyVal
  rest : List PyVal
deriving DecidableEq, Repr

/-- The value of one key of the `mcs_tables` dict: either a legacy table
(list of `(modulation, rate)` pairs) or a bandwidth-adaptive table. -/
inductive McsTable where
  | legacy (rows : List (String × ℚ))
  | adaptive (rows : List AdaptEntry)
deriving DecidableEq, Repr

def rows11a : List (String × ℚ) :=
  [("BPSK", 6.0), ("BPSK", 9.0),
   ("QPSK", 12.0), ("QPSK", 18.0),
   ("16-QAM", 24.0), ("16-QAM", 36.0),
   ("64-QAM", 48.0), ("64-QAM", 54.0)]

def rows11b : List (String × ℚ) :=
  [("DSSS", 1.0), ("DSSS", 2.0),
   ("CCK", 5.5), ("CCK", 11.0)]

def rows11g : List (String × ℚ) :=
  [("BPSK", 6.0), ("BPSK", 9.0),
   ("QPSK", 12.0), ("QPSK", 18.0),
   ("16-QAM", 24.0), ("16-QAM", 36.0),
   ("64-QAM", 48.0), ("64-QAM", 54.0)]

def rows11n : List AdaptEntry :=
  [⟨0, "BPSK", PyVal.num 6.5, PyVal.num 13.5, []⟩,
   ⟨1, "QPSK", PyVal.num 13.0, PyVal.num 27.0, []⟩,
   ⟨2, "QPSK", PyVal.num 19.5, PyVal.num 40.5, []⟩,
   ⟨3, "16-QAM", PyVal.num 26.0, PyVal.num 54.0, []⟩,
   ⟨4, "16-QAM", PyVal.num 39.0, PyVal.num 81.0, []⟩,
   ⟨5, "64-QAM", PyVal.num 52.0, PyVal.num 108.0, []⟩,
   ⟨6, "64-QAM", PyVal.num 58.5, PyVal.num 121.5, []⟩,
   ⟨7, "64-QAM", PyVal.num 65.0, PyVal.num 135.0, []⟩]

def rows11ac : List AdaptEntry :=
  [⟨0, "BPSK", PyVal.num 6.5, PyVal.num 13.5, [PyVal.num 29.3, PyVal.num 58.5]⟩,
   ⟨1, "QPSK", PyVal.num 13.0, PyVal.num 27.0, [PyVal.num 58.5, PyVal.num 117.0]⟩,
   ⟨2, "QPSK", PyVal.num 19.5, PyVal.num 40.5, [PyVal.num 87.8, PyVal.num 175.5]⟩,
   ⟨3, "16-QAM", PyVal.num 26.0, PyVal.num 54.0, [PyVal.num 117.0, PyVal.num 234.0]⟩,
   ⟨4, "16-QAM", PyVal.num 39.0, PyVal.num 81.0, [PyVal.num 175.5, PyVal.num 351.0]⟩,
   ⟨5, "64-QAM", PyVal.num 52.0, PyVal.num 108.0, [PyVal.num 234.0, PyVal.num 468.0]⟩,
   ⟨6, "64-QAM", PyVal.num 58.5, PyVal.num 121.5, [PyVal.num 263.3, PyVal.num 526.5]⟩,
   ⟨7, "64-QAM", PyVal.num 65.0, PyVal.num 135.0, [PyVal.num 292.5, PyVal.num 585.0]⟩,
   ⟨8, "256-QAM", PyVal.num 78.0, PyVal.num 162.0, [PyVal.num 351.0, PyVal.num 702.0]⟩,
   ⟨9, "256-QAM", PyVal.none, PyVal.none, [PyVal.num 390.0, PyVal.num 780.0]⟩]

def rows11ax : List AdaptEntry :=
  [⟨0, "BPSK", PyVal.num 7.3, PyVal.num 15.0, [PyVal.num 30.0, PyVal.num 60.0]⟩,
   ⟨1, "QPSK", PyVal.num 14.6, PyVal.num 30.0, [PyVal.num 60.0, PyVal.num 120.0]⟩,
   ⟨2, "QPSK", PyVal.num 21.9, PyVal.num 45.0, [PyVal.num 90.0, PyVal.num 180.0]⟩,
   ⟨3, "16-QAM", PyVal.num 29.2, PyVal.num 60.0, [PyVal.num 120.0, PyVal.num 240.0]⟩,
   ⟨4, "16-QAM", PyVal.num 43.9, PyVal.num 90.0, [PyVal.num 180.0, PyVal.num 360.0]⟩,
   ⟨5, "64-QAM", PyVal.num 58.5, PyVal.num 120.0, [PyVal.num 240.0, PyVal.num 480.0]⟩,
   ⟨6, "64-QAM", PyVal.num 65.8, PyVal.num 135.0, [PyVal.num 270.0, PyVal.num 540.0]⟩,
   ⟨7, "64-QAM", PyVal.num 73.1, PyVal.num 150.0, [PyVal.num 300.0, PyVal.num 600.0]⟩,
   ⟨8, "256-QAM", PyVal.num 87.8, PyVal.num 180.0, [PyVal.num 360.0, PyVal.num 720.0]⟩,
   ⟨9, "256-QAM", PyVal.num 97.5, PyVal.num 200.0, [PyVal.num 400.0, PyVal.num 800.0]⟩]

def rows11p : List (String × ℚ) :=
  [("BPSK", 3.0), ("BPSK", 6.0),
   ("QPSK", 12.0), ("QPSK", 18.0),
   ("16-QAM", 24.0), ("16-QAM", 36.0),
   ("64-QAM", 48.0), ("64-QAM", 54.0)]

def rows11bd : List AdaptEntry :=
  [⟨0, "BPSK", PyVal.num 7.0, PyVal.num 14.0, []⟩,
   ⟨1, "QPSK", PyVal.num 14.0, PyVal.num 28.0, []⟩,
   ⟨2, "QPSK", PyVal.num 21.0, PyVal.num 42.0, []⟩,
   ⟨3, "16-QAM", PyVal.num 28.0, PyVal.num 56.0, []⟩,
   ⟨4, "16-QAM", PyVal.num 42.0, PyVal.num 84.0, []⟩,
   ⟨5, "64-QAM", PyVal.num 56.0, PyVal.num 112.0, []⟩,
   ⟨6, "64-QAM", PyVal.num 63.0, PyVal.num 126.0, []⟩,
   ⟨7, "64-QAM", PyVal.num 70.0, PyVal.num 140.0, []⟩,
   ⟨8, "256-QAM", PyVal.num 84.0, PyVal.num 168.0, []⟩,
   ⟨9, "256-QAM", PyVal.num 105.0, PyVal.num 210.0, []⟩]

/-- The `mcs_tables` dict of `PPO.py` lines 25-95, as a partial map from
standard name to table (`dict.get` semantics). -/
def mcs_tables (s : String) : Option McsTable :=
  match s with
  | "802.11a" => Option.some (McsTable.legacy rows11a)
  | "802.11b" => Option.some (McsTable.legacy rows11b)
  | "802.11g" => Option.some (McsTable.legacy rows11g)
  | "802.11n" => Option.some (McsTable.adaptive rows11n)
  | "802.11ac" => Option.some (McsTable.adaptive rows11ac)
  | "802.11ax" => Option.some (McsTable.adaptive rows11ax)
  | "802.11p" => Option.some (McsTable.legacy rows11p)
  | "802.11bd" => Option.some (McsTable.adaptive rows11bd)
  | _ => Option.none

/-- The list literal in the branch condition of
`get_modulation_and_datarate` (`PPO.py` line 110). -/
def adaptiveStandards : List String :=
  ["802.11n", "802.11ac", "802.11ax", "802.11bd"]

/-- Python truthiness of the fetched table: `if not mcs_table` is taken
both when the key is absent (`None`) and when the table is empty. -/
def tblEmpty : McsTable → Bool
  | McsTable.legacy rows => rows.isEmpty
  | McsTable.adaptive rows => rows.isEmpty

/-- Python list indexing `l[i]`: non-negative indices are positional,
negative indices count from the end, anything else raises IndexError
(modelled as `Option.none`). -/
def pyIndex {α : Type} (l : List α) (i : ℤ) : Option α :=
  if 0 ≤ i then l.get? i.toNat
  else if (-i).toNat ≤ l.length then l.get? (l.length - (-i).toNat)
  else Option.none

/-- `get_modulation_and_datarate` (`PPO.py` lines 98-120).  The first
component is the returned pair (or the exception raised); the second is
the list of printed log lines.  The two mismatched-shape branches are
unreachable for the table above (every standard in `adaptiveStandards`
maps to an adaptive table and vice versa); they stand for the exceptions
Python tuple unpacking would raise. -/
def get_modulation_and_datarate (ieee_standard : String) (mcs_index : ℤ) (bandwidth : ℚ) :
    Except String (PyVal × PyVal) × List String :=
  match mcs_tables ieee_standard with
  | Option.none =>
      (Except.ok (PyVal.str "N/A", PyVal.str "N/A"),
       ["No MCS table found for the defined standard " ++ ieee_standard ++ "."])
  | Option.some tbl =>
      if tblEmpty tbl then
        (Except.ok (PyVal.str "N/A", PyVal.str "N/A"),
         ["No MCS table found for the defined standard " ++ ieee_standard ++ "."])
      else if ieee_standard ∈ adaptiveStandards then
        match tbl with
        | McsTable.adaptive rows =>
            match rows.find? (fun e => (e.idx : ℤ) == mcs_index) with
            | Option.some e =>
                (Except.ok (PyVal.str e.mod, if bandwidth = 20 then e.r20 else e.r40), [])
            | Option.none => (Except.ok (PyVal.none, PyVal.none), [])
        | McsTable.legacy _ => (Except.error "TypeError", [])
      else
        match tbl with
        | McsTable.legacy rows =>
            match pyIndex rows mcs_index with
            | Option.some mr => (Except.ok (PyVal.str mr.1, PyVal.num mr.2), [])
            | Option.none => (Except.error "IndexError", [])
        | McsTable.adaptive _ => (Except.error "ValueError", [])

/-!
`VANETEnv` (`PPO.py` lines 133-202).  The state is the pair
`(power, vehicle_density)`; an episode step clips the power change into
`[1, 30]`, rescales the density by the cube root of the power ratio
(`beta = 3`, line 14), and then attempts to read the CBR from the numeric
state vector with the string key `cbr`.
-/

/-- `self.CBR_target` (`PPO.py` line 148). -/
def CBR_target : ℚ := 0.6

/-- The Heaviside helper `H` of `reward_function` (`PPO.py` line 187). -/
def H (x : ℚ) : ℚ := if 0 ≤ x then 1 else 0

/-- The helper `g` of `reward_function` (`PPO.py` line 190). -/
def g (x k : ℚ) : ℚ := x * (H x - 2 * H (x - k))

/-- `VANETEnv.reward_function` (`PPO.py` lines 185-202).  The weights
`pi_b`, `pi_p_prime`, `pi_p2`, `kb` are attributes the source never sets,
so they are taken here as explicit arguments. -/
def reward_function (pi_b pi_p_prime pi_p2 kb : ℚ) (cbr p p_prime : ℚ) : ℚ :=
  let reward := pi_b * g cbr kb - pi_p_prime * |p - p_prime| - pi_p2 * g p_prime 20
  if |cbr - CBR_target| ≤ 0.025 then reward + 10 else reward - 0.1

/-- `new_p = np.clip(p + delta_p, 1, 30)` (`PPO.py` line 170).  Power
and action values are machine floats, hence exact rationals. -/
def stepPower (p delta : ℚ) : ℚ := min (max (p + delta) 1) 30

/-- `rho = rho * ((p / new_p) ** (1 / beta))` with `beta = 3`
(`PPO.py` line 173): the cube root forces the real power function. -/
noncomputable def stepDensity (rho p delta : ℚ) : ℝ :=
  (rho : ℝ) * ((p : ℝ) / ((stepPower p delta : ℚ) : ℝ)) ^ ((1 : ℝ) / 3)

/-- Indexing a plain 1-D numeric vector (a numpy float array) with a
string key: numpy rejects every string key on such an array, so no value
is ever produced (`self.current_state['cbr']`, `PPO.py` line 177,
raises IndexError). -/
def vecStringIndex (_v : List ℝ) (_key : String) : Option ℝ := Option.none

/-- `VANETEnv.step` (`PPO.py` lines 164-183) from the state
`(p, rho)` under the action `delta`.  A successful call would return
`(new_state, reward, done, info)` with `done = true`; the CBR read on
line 177 fails first, and even if a CBR value were produced, the
`reward_function` call would fail on the never-initialised weight
`pi_b`. -/
noncomputable def step (p rho delta : ℚ) : Except String (ℚ × ℝ × ℚ × Bool) :=
  let new_p := stepPower p delta
  let new_rho := stepDensity rho p delta
  match vecStringIndex [(new_p : ℝ), new_rho] "cbr" with
  | Option.none => Except.error "IndexError"
  | Option.some _ => Except.error "AttributeError"

/-!
`PPOAgent.update` (`PPO.py` lines 264-293): the discounted-return scan
and the return normalization, the stages of `update` the claims are
about.  `discountedRewards` is the reversed loop of lines 272-276
(`running_add = running_add * gamma + rewards[t]` filling the array from
the back); the normalization of line 279 subtracts the mean and divides
by the standard deviation plus `1e-10`.
-/

/-- One iteration of the reversed loop: the pair carries the list built
so far (front of the array) and the current `running_add`. -/
def drLoop (gamma : ℚ) (acc : List ℚ × ℚ) (r : ℚ) : List ℚ × ℚ :=
  ((acc.2 * gamma + r) :: acc.1, acc.2 * gamma + r)

/-- `discounted_rewards` (`PPO.py` lines 272-276): scan the rewards in
reverse temporal order accumulating `running_add`. -/
def discountedRewards (gamma : ℚ) (rewards : List ℚ) : List ℚ :=
  (rewards.reverse.foldl (drLoop gamma) ([], 0)).1

/-- `np.mean` of a rational list. -/
def npMean (l : List ℚ) : ℚ := l.sum / (l.length : ℚ)

/-- `np.var`: mean squared deviation from the mean. -/
def npVar (l : List ℚ) : ℚ :=
  (l.map (fun x => (x - npMean l) ^ 2)).sum / (l.length : ℚ)

/-- `np.std`: square root of the mean squared deviation. -/
noncomputable def npStd (l : List ℚ) : ℝ := Real.sqrt ((npVar l : ℚ) : ℝ)

/-- The normalization of `PPO.py` line 279:
`(discounted_rewards - mean) / (std + 1e-10)` applied elementwise. -/
noncomputable def normalizeReturns (l : List ℚ) : List ℝ :=
  l.map (fun x : ℚ => (((x : ℚ) : ℝ) - ((npMean l : ℚ) : ℝ)) / (npStd l + 1e-10))

/-!
`Server` (`PPO.py` lines 296-375).  A telemetry record is a JSON object;
the fields the optimization pass reads are modelled as optional numeric
or string values (`Option.none` meaning the key is absent).
-/

/-- The fields of one decoded car log that `VANETEnv.reset` and
`Server.process_car_log` read.  Fields: `power_transmission`,
`vehicle_density`, `channel_busy_ratio`, `data_rate`, `ieee_standard`,
`bandwidth`, `mcs_index`, `car_id`. -/
structure CarLog where
  power_transmission : Option ℚ
  vehicle_density : Option ℚ
  channel_busy_ratio : Option ℚ
  data_rate : Option ℚ
  ieee_standard : Option String
  bandwidth : Option ℚ
  mcs_index : Option ℤ
  car_id : Option String
deriving DecidableEq, Repr

/-- `VANETEnv.reset` (`PPO.py` lines 158-162) seeded with one chosen
log: reads `log['power_transmission']` then `log['vehicle_density']`,
raising KeyError on a missing key. -/
def reset (log : CarLog) : Except String (ℚ × ℚ) :=
  match log.power_transmission with
  | Option.none => Except.error "KeyError: power_transmission"
  | Option.some p =>
      match log.vehicle_density with
      | Option.none => Except.error "KeyError: vehicle_density"
      | Option.some d => Except.ok (p, d)

/-- One episode of `PPOAgent.train` (`PPO.py` lines 228-256) over the
singleton log pool: reset, then select an action and step.  The selected
action is the clipped Gaussian draw of `select_action`; its value is
taken as the parameter `a`.  Because `step` never succeeds, the episode
propagates the first exception. -/
noncomputable def trainOneEpisode (log : CarLog) (a : ℚ) : Except String Unit :=
  match reset log with
  | Except.error e => Except.error e
  | Except.ok pd =>
      match step pd.1 pd.2 a with
      | Except.error e => Except.error e
      | Except.ok _ => Except.ok ()

/-- `Server.process_car_log` (`PPO.py` lines 339-362): extract the
standard/bandwidth/MCS defaults, run one training episode, then (were it
reached) select the final action `a2`, consult the rate table, read
`car_log['car_id']` for the log line, and emit the actuation command
`(car_id, new_power, data_rate)`. -/
noncomputable def process_car_log (log : CarLog) (a a2 : ℚ) :
    Except String (String × ℚ × PyVal) :=
  let ieee := log.ieee_standard.getD "802.11g"
  let bw := log.bandwidth.getD 20
  let mcs := log.mcs_index.getD 0
  match trainOneEpisode log a with
  | Except.error e => Except.error e
  | Except.ok _ =>
      match (get_modulation_and_datarate ieee mcs bw).1 with
      | Except.error e => Except.error e
      | Except.ok md =>
          match log.car_id with
          | Option.none => Except.error "KeyError: car_id"
          | Option.some cid => Except.ok (cid, a2, md.2)

/-- `Server.handle_client` (`PPO.py` lines 321-337) after a successful
JSON decode: append the record to the shared car-log list, then run the
optimizer pass; any exception is caught and only logged, so the result
is the new log list together with the actuation command, if any. -/
noncomputable def handle_client (car_logs : List CarLog) (log : CarLog) (a a2 : ℚ) :
    List CarLog × Option (String × ℚ × PyVal) :=
  let logs2 := car_logs ++ [log]
  match process_car_log log a a2 with
  | Except.error _ => (logs2, Option.none)
  | Except.ok cmd => (logs2, Option.some cmd)

/-- The end-to-end scenario record of the spec (§8): `power_transmission
= 15`, `data_rate = 18`, `channel_busy_ratio = 0.6`, standard, bandwidth
and MCS index omitted.  Like every record of the external JSON schema it
has no `vehicle_density` key. -/
def endToEndRecord : CarLog :=
  ⟨Option.some 15, Option.none, Option.some 0.6, Option.some 18,
   Option.none, Option.none, Option.none, Option.some "car1"⟩

/-- A schema-conforming record used to witness the missing-density
behaviour. -/
def schemaRecord : CarLog :=
  ⟨Option.some 21, Option.none, Option.some 0.4, Option.some 12,
   Option.some "802.11p", Option.some 20, Option.some 2, Option.some "car7"⟩

/-!
`server.py`: the raw-telemetry collector.  A record is a Python dict
(an insertion-ordered association list); a value is either a number (any
value `float()` accepts, represented by its numeric value) or a value
`float()` rejects.
-/

/-- A record field value as seen by `process_data`: `num q` is any value
`float()` converts to `q`; `nonNum` is any value `float()` raises on. -/
inductive PyField where
  | num (q : ℚ)
  | nonNum (s : String)
deriving DecidableEq, Repr

/-- `float(v)`: the conversion the `try` block of `process_data`
performs. -/
def toFloat : PyField → Option ℚ
  | PyField.num q => Option.some q
  | PyField.nonNum _ => Option.none

/-- A decoded JSON record: a dict, i.e. an insertion-ordered list of
distinct keys. -/
abbrev PyDict : Type := List (String × PyField)

/-- `record.get(k)`: first value stored under `k`. -/
def dictGet : PyDict → String → Option PyField
  | [], _ => Option.none
  | kv :: rest, k => if kv.1 = k then Option.some kv.2 else dictGet rest k

/-- `record[k] = v`: replace the value under `k` in place, or append the
key if absent (Python dicts preserve insertion order). -/
def dictSet : PyDict → String → PyField → PyDict
  | [], k, v => [(k, v)]
  | kv :: rest, k, v =>
      if kv.1 = k then (k, v) :: rest else kv :: dictSet rest k v

/-- Python `round(q, 2)`: nearest value with two decimal places, here
with half rounded up.  (CPython rounds exact halves to even; no value in
this development lands on an exact half.) -/
def pyRound2 (q : ℚ) : ℚ := ((⌊q * 100 + 1 / 2⌋ : ℤ) : ℚ) / 100

/-- The `try`/`except` of `process_data` (`server.py` lines 21-26): both
conversions happen inside one `try`, so if either the power field or the
data-rate field fails to convert, BOTH fall back to the defaults
`(15, 18)`. -/
def coupledPD (r : PyDict) : ℚ × ℚ :=
  match toFloat ((dictGet r "power_transmission").getD (PyField.num 15)),
        toFloat ((dictGet r "data_rate").getD (PyField.num 18)) with
  | Option.some p, Option.some d => (p, d)
  | _, _ => (15, 18)

/-- The loop body of `process_data` (`server.py` lines 20-31) on one
record. -/
def procOne (r : PyDict) : PyDict :=
  dictSet (dictSet r "optimized_power" (PyField.num (pyRound2 ((coupledPD r).1 * 0.9))))
    "optimized_data_rate" (PyField.num (pyRound2 ((coupledPD r).2 * 1.1)))

/-- `process_data` (`server.py` lines 12-32). -/
def process_data (data_list : List PyDict) : List PyDict :=
  data_list.map procOne

/-- The per-field reading of the claim about `process_data`: the power
value defaults to 15 and the data-rate value to 18 independently,
whenever that field is missing or does not convert. -/
def claimedPD (r : PyDict) : ℚ × ℚ :=
  ((toFloat ((dictGet r "power_transmission").getD (PyField.num 15))).getD 15,
   (toFloat ((dictGet r "data_rate").getD (PyField.num 18))).getD 18)

/-- `process_data` as the claim describes it: each record gets
`optimized_power` and `optimized_data_rate` computed from the per-field
defaults of `claimedPD`. -/
def process_data_claimed (data_list : List PyDict) : List PyDict :=
  data_list.map (fun r =>
    dictSet (dictSet r "optimized_power"
        (PyField.num (pyRound2 ((claimedPD r).1 * 0.9))))
      "optimized_data_rate" (PyField.num (pyRound2 ((claimedPD r).2 * 1.1))))

/-- The record refuting the per-field reading: the power field does not
convert, the data-rate field does. -/
def cexRecord : PyDict :=
  [("power_transmission", PyField.nonNum "offline"), ("data_rate", PyField.num 30)]

/-!
Helper lemmas.
-/

theorem dictGet_dictSet_same (d : PyDict) (k : String) (v : PyField) :
    dictGet (dictSet d k v) k = Option.some v := by
  induction d with
  | nil => simp [dictGet, dictSet]
  | cons kv rest ih =>
      by_cases h : kv.1 = k
      · simp [dictSet, h, dictGet]
      · simp [dictSet, h, dictGet, ih]

theorem dictGet_dictSet_other (d : PyDict) (k k2 : String) (v : PyField)
    (h : ¬ k2 = k) :
    dictGet (dictSet d k v) k2 = dictGet d k2 := by
  have h2 : ¬ k = k2 := fun hk => h hk.symm
  induction d with
  | nil => simp [dictGet, dictSet, h2]
  | cons kv rest ih =>
      by_cases hk : kv.1 = k
      · simp [dictSet, hk, dictGet, h2]
      · simp only [dictSet, hk, if_neg hk, dictGet]
        by_cases hk2 : kv.1 = k2
        · simp [hk2]
        · simp [hk2, ih]

theorem getD_map_of_lt {α β : Type} (f : α → β) (l : List α) (i : ℕ)
    (d1 : α) (d2 : β) (h : i < l.length) :
    (l.map f).getD i d2 = f (l.getD i d1) := by
  induction l generalizing i with
  | nil => simp at h
  | cons a t ih =>
      cases i with
      | zero => simp [List.getD_cons_zero]
      | succ n =>
          simp only [List.map_cons, List.getD_cons_succ]
          exact ih n (Nat.lt_of_succ_lt_succ h)

theorem drLoop_snd_inv (gamma : ℚ) (l : List ℚ) (acc : List ℚ × ℚ)
    (h : acc.2 = acc.1.headD 0) :
    (l.foldl (drLoop gamma) acc).2 = (l.foldl (drLoop gamma) acc).1.headD 0 := by
  induction l generalizing acc with
  | nil => exact h
  | cons r t ih => exact ih (drLoop gamma acc r) rfl

theorem discountedRewards_cons (gamma r : ℚ) (rs : List ℚ) :
    discountedRewards gamma (r :: rs)
      = ((discountedRewards gamma rs).headD 0 * gamma + r)
        :: discountedRewards gamma rs := by
  have hP := drLoop_snd_inv gamma rs.reverse ([], 0) rfl
  unfold discountedRewards
  rw [List.reverse_cons, List.foldl_append]
  simp only [List.foldl_cons, List.foldl_nil, drLoop]
  rw [hP]

theorem discountedRewards_length (gamma : ℚ) (rs : List ℚ) :
    (discountedRewards gamma rs).length = rs.length := by
  induction rs with
  | nil => rfl
  | cons r t ih => rw [discountedRewards_cons]; simp [ih]

theorem headD_eq_getD (l : List ℚ) : l.headD 0 = l.getD 0 0 := by
  cases l <;> rfl

theorem discountedRewards_rec (gamma : ℚ) (rs : List ℚ) (t : ℕ)
    (h : t < rs.length) :
    (discountedRewards gamma rs).getD t 0
      = rs.getD t 0 + gamma * (discountedRewards gamma rs).getD (t + 1) 0 := by
  induction rs generalizing t with
  | nil => simp at h
  | cons r tl ih =>
      rw [discountedRewards_cons]
      cases t with
      | zero =>
          simp only [List.getD_cons_zero, List.getD_cons_succ, headD_eq_getD]
          ring
      | succ n =>
          simp only [List.getD_cons_succ]
          exact ih n (Nat.lt_of_succ_lt_succ h)

/-!
The claims.
-/

/-- Claim C1: for every current state `(power, density)` and every
action, `VANETEnv.step` cannot run to completion — after computing the
clipped power and the new density it indexes the 2-element numeric state
vector with the string key `cbr`, which is not a valid index, so every
call fails before returning. -/
theorem step_string_index_always_fails (p rho delta : ℚ) :
    step p rho delta = Except.error "IndexError" := rfl

/-- Claim C4: the power computed inside `step` is
`clip(power + delta, 1, 30)`, hence always within `[1, 30]` for deltas of
any magnitude; but `step` itself never returns it (nor the `done = true`
flag): at the sample state `(15, 0.1)` with action `+2` the call dies
with the string-index IndexError, as it does everywhere (claim treated
as a code bug: the computed values match the claim, the return never
happens). -/
theorem step_clip_bounds_but_never_returns :
    (∀ p delta : ℚ, 1 ≤ stepPower p delta ∧ stepPower p delta ≤ 30
        ∧ stepPower p delta = min (max (p + delta) 1) 30)
    ∧ step 15 0.1 2 = Except.error "IndexError" := by
  constructor
  · intro p delta
    exact ⟨le_min (le_max_right _ _) (by norm_num), min_le_right _ _, rfl⟩
  · rfl

/-- Claim C7: the end-to-end scenario record (power 15, data rate 18,
CBR 0.6, standard/MCS/bandwidth omitted) never produces an actuation
command: `process_car_log` dies reading the absent `vehicle_density` key
in `reset`, whatever the sampled actions are.  The rate-table result for
the default standard/index/bandwidth, which the claim says the emitted
command would carry, is `("BPSK", 6.0)` (claim treated as a code bug:
the pass cannot emit anything). -/
theorem optimizer_pass_fails_on_default_record (a a2 : ℚ) :
    process_car_log endToEndRecord a a2 = Except.error "KeyError: vehicle_density"
    ∧ (get_modulation_and_datarate "802.11g" 0 20).1
        = Except.ok (PyVal.str "BPSK", PyVal.num 6.0) := ⟨rfl, rfl⟩

/-- Claim C9: a record without a `vehicle_density` key (as every record
of the external JSON schema is) makes the optimizer pass fail at the
`reset` read; `handle_client` catches the exception, so no actuation
command is emitted while the record stays appended to the shared
car-log list. -/
theorem missing_density_no_actuation (logs : List CarLog) (log : CarLog)
    (p a a2 : ℚ)
    (hd : log.vehicle_density = Option.none)
    (hp : log.power_transmission = Option.some p) :
    process_car_log log a a2 = Except.error "KeyError: vehicle_density"
    ∧ handle_client logs log a a2 = (logs ++ [log], Option.none) := by
  have hpass : process_car_log log a a2
      = Except.error "KeyError: vehicle_density" := by
    simp [process_car_log, trainOneEpisode, reset, hp, hd]
  refine ⟨hpass, ?_⟩
  simp [handle_client, hpass]

/-- Witness for `missing_density_no_actuation` at a concrete
schema-conforming record. -/
theorem missing_density_no_actuation_witness :
    schemaRecord.vehicle_density = Option.none
    ∧ schemaRecord.power_transmission = Option.some 21
    ∧ (process_car_log schemaRecord 0 0 = Except.error "KeyError: vehicle_density"
       ∧ handle_client [] schemaRecord 0 0 = ([] ++ [schemaRecord], Option.none)) :=
  ⟨rfl, rfl, missing_density_no_actuation [] schemaRecord 21 0 0 rfl rfl⟩

/-- Claim C3, counterexample: the claimed characterisation of `g`
quantifies the threshold over all rational `kb`, but at `x = -1`,
`k = -5` we have `k ≤ x` and `x < 0` while `g x k = 2`, which is neither
`-x = 1` (the claimed value for `x ≥ k`) nor `0` (the claimed value for
`x < 0`). -/
theorem g_threshold_counterexample :
    ((-5 : ℚ) ≤ -1) ∧ ((-1 : ℚ) < 0) ∧ g (-1) (-5) = 2
      ∧ ¬ g (-1) (-5) = -(-1) ∧ ¬ g (-1) (-5) = 0 := by
  norm_num [g, H]

/-- Claim C3, amended: for every choice of the (never initialised)
weights and every input, `reward_function` equals the claimed closed
form, with the `+10` bonus exactly on `|cbr - 0.6| ≤ 0.025` (inclusive
boundary) and `-0.1` otherwise; and for every NONNEGATIVE threshold `k`
the helper `g` yields `x` on `0 ≤ x < k`, `-x` on `x ≥ k`, `0` on
`x < 0`, with `g(-1,5) = 0`, `g(3,5) = 3`, `g(7,5) = -7`. -/
theorem reward_function_amended_spec
    (pi_b pi_p_prime pi_p2 kb cbr p p2 x k : ℚ) (hk : 0 ≤ k) :
    reward_function pi_b pi_p_prime pi_p2 kb cbr p p2
        = pi_b * g cbr kb - pi_p_prime * |p - p2| - pi_p2 * g p2 20
          + (if |cbr - 0.6| ≤ 0.025 then 10 else -0.1)
    ∧ (0 ≤ x → x < k → g x k = x)
    ∧ (k ≤ x → g x k = -x)
    ∧ (x < 0 → g x k = 0)
    ∧ g (-1) 5 = 0 ∧ g 3 5 = 3 ∧ g 7 5 = -7 := by
  refine ⟨?_, ?_, ?_, ?_, by norm_num [g, H], by norm_num [g, H], by norm_num [g, H]⟩
  · unfold reward_function CBR_target
    split_ifs <;> ring
  · intro h1 h2
    unfold g H
    rw [if_pos h1, if_neg (by linarith : ¬ (0 : ℚ) ≤ x - k)]
    ring
  · intro h
    have hx : 0 ≤ x := le_trans hk h
    unfold g H
    rw [if_pos hx, if_pos (by linarith : (0 : ℚ) ≤ x - k)]
    ring
  · intro h
    unfold g H
    rw [if_neg (by linarith : ¬ (0 : ℚ) ≤ x),
      if_neg (by linarith : ¬ (0 : ℚ) ≤ x - k)]
    ring

/-- Witness for `reward_function_amended_spec` at concrete weights and
inputs. -/
theorem reward_function_amended_spec_witness :
    (0 : ℚ) ≤ 5
    ∧ (reward_function 1 1 1 5 0 2 1
          = 1 * g 0 5 - 1 * |(2 : ℚ) - 1| - 1 * g 1 20
            + (if |(0 : ℚ) - 0.6| ≤ 0.025 then 10 else -0.1)
       ∧ ((0 : ℚ) ≤ 3 → (3 : ℚ) < 5 → g 3 5 = 3)
       ∧ ((5 : ℚ) ≤ 3 → g 3 5 = -3)
       ∧ ((3 : ℚ) < 0 → g 3 5 = 0)
       ∧ g (-1) 5 = 0 ∧ g 3 5 = 3 ∧ g 7 5 = -7) :=
  ⟨by decide, reward_function_amended_spec 1 1 1 5 0 2 1 3 5 (by decide)⟩

/-- Claim C5: with strictly positive power and density, the density
update of `step` leaves the density unchanged when the clipped power
equals the old power, strictly decreases it when the power strictly
increases, and always yields a strictly positive density. -/
theorem density_update_invariants (rho p delta : ℚ)
    (hrho : 0 < rho) (hp : 0 < p) :
    (stepPower p delta = p → stepDensity rho p delta = (rho : ℝ))
    ∧ (p < stepPower p delta → stepDensity rho p delta < (rho : ℝ))
    ∧ 0 < stepDensity rho p delta := by
  have hnp : 0 < stepPower p delta :=
    lt_min (lt_of_lt_of_le one_pos (le_max_right _ _)) (by norm_num)
  have hnpR : (0 : ℝ) < ((stepPower p delta : ℚ) : ℝ) := by exact_mod_cast hnp
  have hpR : (0 : ℝ) < ((p : ℚ) : ℝ) := by exact_mod_cast hp
  have hrhoR : (0 : ℝ) < ((rho : ℚ) : ℝ) := by exact_mod_cast hrho
  refine ⟨?_, ?_, ?_⟩
  · intro h
    unfold stepDensity
    rw [h, div_self (ne_of_gt hpR), Real.one_rpow, mul_one]
  · intro h
    have h1 : ((p : ℚ) : ℝ) / ((stepPower p delta : ℚ) : ℝ) < 1 := by
      rw [div_lt_one hnpR]
      exact_mod_cast h
    have h0 : (0 : ℝ) ≤ ((p : ℚ) : ℝ) / ((stepPower p delta : ℚ) : ℝ) :=
      le_of_lt (div_pos hpR hnpR)
    have h2 := Real.rpow_lt_one h0 h1 (by norm_num : (0 : ℝ) < 1 / 3)
    have h3 := mul_lt_of_lt_one_right hrhoR h2
    unfold stepDensity
    exact h3
  · exact mul_pos hrhoR (Real.rpow_pos_of_pos (div_pos hpR hnpR) _)

/-- Witness for `density_update_invariants` at `rho = 1`, `p = 2`,
`delta = 0` (where the clipped power equals the old power). -/
theorem density_update_invariants_witness :
    (0 : ℚ) < 1 ∧ (0 : ℚ) < 2
    ∧ ((stepPower 2 0 = 2 → stepDensity 1 2 0 = ((1 : ℚ) : ℝ))
       ∧ (2 < stepPower 2 0 → stepDensity 1 2 0 < ((1 : ℚ) : ℝ))
       ∧ 0 < stepDensity 1 2 0) :=
  ⟨by decide, by decide, density_update_invariants 1 2 0 (by decide) (by decide)⟩

/-- Claim C2: the rate-table lookup is a pure function with
`lookup("802.11p", 0, bw) = ("BPSK", 3.0)` for every bandwidth,
`lookup("802.11ax", 3, 20) = ("16-QAM", 29.2)`,
`lookup("802.11ax", 3, 40) = ("16-QAM", 60.0)`, the `("N/A", "N/A")`
sentinel (plus the failure log line) for every standard not in the
table, and — for every bandwidth-adaptive standard and matched MCS
entry — the narrow column exactly when the bandwidth is 20 and the
wider column for every other bandwidth. -/
theorem rate_table_lookup_spec (bw bw2 : ℚ) (s std : String) (i : ℤ)
    (rows : List AdaptEntry) (e : AdaptEntry)
    (hbw2 : ¬ bw2 = 20) (hs : mcs_tables s = Option.none)
    (hstd : std ∈ adaptiveStandards)
    (hrows : mcs_tables std = Option.some (McsTable.adaptive rows))
    (hfind : rows.find? (fun e2 => (e2.idx : ℤ) == i) = Option.some e) :
    (get_modulation_and_datarate "802.11p" 0 bw).1
        = Except.ok (PyVal.str "BPSK", PyVal.num 3.0)
    ∧ get_modulation_and_datarate "802.11ax" 3 20
        = (Except.ok (PyVal.str "16-QAM", PyVal.num 29.2), [])
    ∧ get_modulation_and_datarate "802.11ax" 3 40
        = (Except.ok (PyVal.str "16-QAM", PyVal.num 60.0), [])
    ∧ get_modulation_and_datarate s i bw
        = (Except.ok (PyVal.str "N/A", PyVal.str "N/A"),
           ["No MCS table found for the defined standard " ++ s ++ "."])
    ∧ get_modulation_and_datarate std i 20
        = (Except.ok (PyVal.str e.mod, e.r20), [])
    ∧ get_modulation_and_datarate std i bw2
        = (Except.ok (PyVal.str e.mod, e.r40), []) := by
  have hne : rows.isEmpty = false := by
    cases rows with
    | nil => simp [List.find?] at hfind
    | cons a t => rfl
  refine ⟨rfl, rfl, rfl, ?_, ?_, ?_⟩
  · simp [get_modulation_and_datarate, hs]
  · simp [get_modulation_and_datarate, hrows, tblEmpty, hne, hstd, hfind]
  · simp [get_modulation_and_datarate, hrows, tblEmpty, hne, hstd, hfind, hbw2]

/-- Witness for `rate_table_lookup_spec` at concrete inputs: bandwidths
37 and 40, the unknown standard `802.11z`, and the 802.11ax MCS-3 row. -/
theorem rate_table_lookup_spec_witness :
    ¬ (40 : ℚ) = 20
    ∧ mcs_tables "802.11z" = Option.none
    ∧ "802.11ax" ∈ adaptiveStandards
    ∧ mcs_tables "802.11ax" = Option.some (McsTable.adaptive rows11ax)
    ∧ ((get_modulation_and_datarate "802.11p" 0 37).1
          = Except.ok (PyVal.str "BPSK", PyVal.num 3.0)
       ∧ get_modulation_and_datarate "802.11ax" 3 20
          = (Except.ok (PyVal.str "16-QAM", PyVal.num 29.2), [])
       ∧ get_modulation_and_datarate "802.11ax" 3 40
          = (Except.ok (PyVal.str "16-QAM", PyVal.num 60.0), [])
       ∧ get_modulation_and_datarate "802.11z" 3 37
          = (Except.ok (PyVal.str "N/A", PyVal.str "N/A"),
             ["No MCS table found for the defined standard " ++ "802.11z" ++ "."])
       ∧ get_modulation_and_datarate "802.11ax" 3 20
          = (Except.ok (PyVal.str "16-QAM", PyVal.num 29.2), [])
       ∧ get_modulation_and_datarate "802.11ax" 3 40
          = (Except.ok (PyVal.str "16-QAM", PyVal.num 60.0), [])) :=
  ⟨by decide, rfl, by decide, rfl,
   rate_table_lookup_spec 37 40 "802.11z" "802.11ax" 3 rows11ax
     ⟨3, "16-QAM", PyVal.num 29.2, PyVal.num 60.0, [PyVal.num 120.0, PyVal.num 240.0]⟩
     (by decide) rfl (by decide) rfl rfl⟩

/-- Claim C10: for every bandwidth-adaptive standard and every MCS index
matching no entry of its table, the lookup returns `(None, None)`
silently — no `("N/A", "N/A")` sentinel and no failure log line. -/
theorem adaptive_lookup_unmatched_silent (std : String) (i : ℤ) (bw : ℚ)
    (rows : List AdaptEntry)
    (hstd : std ∈ adaptiveStandards)
    (hrows : mcs_tables std = Option.some (McsTable.adaptive rows))
    (hfind : rows.find? (fun e => (e.idx : ℤ) == i) = Option.none) :
    get_modulation_and_datarate std i bw = (Except.ok (PyVal.none, PyVal.none), [])
    ∧ ¬ get_modulation_and_datarate std i bw
        = (Except.ok (PyVal.str "N/A", PyVal.str "N/A"),
           ["No MCS table found for the defined standard " ++ std ++ "."]) := by
  have hm : std = "802.11n" ∨ std = "802.11ac" ∨ std = "802.11ax"
      ∨ std = "802.11bd" := by
    simpa [adaptiveStandards] using hstd
  have hne : rows.isEmpty = false := by
    rcases hm with h | h | h | h
    · subst h
      have h2 : Option.some (McsTable.adaptive rows11n)
          = Option.some (McsTable.adaptive rows) := hrows
      injection h2 with h3
      injection h3 with h4
      rw [← h4]
      rfl
    · subst h
      have h2 : Option.some (McsTable.adaptive rows11ac)
          = Option.some (McsTable.adaptive rows) := hrows
      injection h2 with h3
      injection h3 with h4
      rw [← h4]
      rfl
    · subst h
      have h2 : Option.some (McsTable.adaptive rows11ax)
          = Option.some (McsTable.adaptive rows) := hrows
      injection h2 with h3
      injection h3 with h4
      rw [← h4]
      rfl
    · subst h
      have h2 : Option.some (McsTable.adaptive rows11bd)
          = Option.some (McsTable.adaptive rows) := hrows
      injection h2 with h3
      injection h3 with h4
      rw [← h4]
      rfl
  constructor
  · simp [get_modulation_and_datarate, hrows, tblEmpty, hne, hstd, hfind]
  · simp [get_modulation_and_datarate, hrows, tblEmpty, hne, hstd, hfind]

/-- Witness for `adaptive_lookup_unmatched_silent` at the 802.11ax
table and the unmatched MCS index 42. -/
theorem adaptive_lookup_unmatched_silent_witness :
    "802.11ax" ∈ adaptiveStandards
    ∧ mcs_tables "802.11ax" = Option.some (McsTable.adaptive rows11ax)
    ∧ rows11ax.find? (fun e => (e.idx : ℤ) == 42) = Option.none
    ∧ (get_modulation_and_datarate "802.11ax" 42 20
          = (Except.ok (PyVal.none, PyVal.none), [])
       ∧ ¬ get_modulation_and_datarate "802.11ax" 42 20
          = (Except.ok (PyVal.str "N/A", PyVal.str "N/A"),
             ["No MCS table found for the defined standard " ++ "802.11ax" ++ "."])) :=
  ⟨by decide, rfl, rfl,
   adaptive_lookup_unmatched_silent "802.11ax" 42 20 rows11ax (by decide) rfl rfl⟩

/-- Claim C6: for every batch, the discounted returns of
`PPOAgent.update` satisfy `G_t = r_t + gamma * G_(t+1)` (with the return
past the end equal to 0, via the reverse scan), and the normalization
divides by the standard deviation plus `1e-10`, whose sum is strictly
positive — so no division by zero occurs, identical-reward batches
included. -/
theorem discounted_returns_and_normalization (gamma : ℚ) (rs : List ℚ)
    (t : ℕ) (_hne : rs ≠ []) (ht : t < rs.length) :
    (discountedRewards gamma rs).length = rs.length
    ∧ (discountedRewards gamma rs).getD t 0
        = rs.getD t 0 + gamma * (discountedRewards gamma rs).getD (t + 1) 0
    ∧ 0 < npStd (discountedRewards gamma rs) + 1e-10
    ∧ (normalizeReturns (discountedRewards gamma rs)).getD t 0
        = ((((discountedRewards gamma rs).getD t 0 : ℚ) : ℝ)
            - ((npMean (discountedRewards gamma rs) : ℚ) : ℝ))
          / (npStd (discountedRewards gamma rs) + 1e-10) := by
  have hlen : t < (discountedRewards gamma rs).length := by
    rw [discountedRewards_length]
    exact ht
  refine ⟨discountedRewards_length gamma rs, discountedRewards_rec gamma rs t ht,
    ?_, ?_⟩
  · have h := Real.sqrt_nonneg (((npVar (discountedRewards gamma rs) : ℚ) : ℝ))
    have h2 : (0 : ℝ) < 1e-10 := by norm_num
    unfold npStd
    linarith
  · unfold normalizeReturns
    exact getD_map_of_lt _ _ t 0 0 hlen

/-- Witness for `discounted_returns_and_normalization` on a batch of
identical rewards (`[2, 2, 2]`, `gamma = 1/2`, `t = 1`). -/
theorem discounted_returns_and_normalization_witness :
    ([2, 2, 2] : List ℚ) ≠ []
    ∧ 1 < ([2, 2, 2] : List ℚ).length
    ∧ ((discountedRewards (1/2) [2, 2, 2]).length = ([2, 2, 2] : List ℚ).length
       ∧ (discountedRewards (1/2) [2, 2, 2]).getD 1 0
           = ([2, 2, 2] : List ℚ).getD 1 0
             + (1/2) * (discountedRewards (1/2) [2, 2, 2]).getD 2 0
       ∧ 0 < npStd (discountedRewards (1/2) [2, 2, 2]) + 1e-10
       ∧ (normalizeReturns (discountedRewards (1/2) [2, 2, 2])).getD 1 0
           = ((((discountedRewards (1/2) [2, 2, 2]).getD 1 0 : ℚ) : ℝ)
               - ((npMean (discountedRewards (1/2) [2, 2, 2]) : ℚ) : ℝ))
             / (npStd (discountedRewards (1/2) [2, 2, 2]) + 1e-10)) :=
  ⟨by decide, by decide,
   discounted_returns_and_normalization (1/2) [2, 2, 2] 1 (by decide) (by decide)⟩

/-- Claim C8, counterexample: on a record whose power field does not
convert while its data-rate field is the number 30, `process_data`
resets BOTH values to the defaults (one `try` covers both conversions),
so its output differs from the claimed per-field-default output
(`optimized_data_rate` 19.8 instead of 33.0). -/
theorem process_data_claim_counterexample :
    process_data [cexRecord] ≠ process_data_claimed [cexRecord] := by
  norm_num [process_data, process_data_claimed, procOne, coupledPD, claimedPD,
    cexRecord, dictGet, dictSet, toFloat, pyRound2,
    (by decide : ("power_transmission" : String) ≠ "data_rate"),
    (by decide : ("power_transmission" : String) ≠ "optimized_power"),
    (by decide : ("data_rate" : String) ≠ "optimized_power"),
    (by decide : ("power_transmission" : String) ≠ "optimized_data_rate"),
    (by decide : ("data_rate" : String) ≠ "optimized_data_rate"),
    (by decide : ("optimized_power" : String) ≠ "optimized_data_rate")]

/-- Claim C8, amended: `process_data` returns the records in their
original order, each with `optimized_power = round(0.9 * p, 2)` and
`optimized_data_rate = round(1.1 * d, 2)` set and every other field
unchanged, where `(p, d)` are the converted power (default 15 when
missing) and data-rate (default 18 when missing) values when BOTH
convert, and `(15, 18)` when either conversion fails — the single
`try`/`except` couples the two defaults. -/
theorem process_data_amended_spec (recs : List PyDict) (i : ℕ) (k : String)
    (hi : i < recs.length)
    (h1 : ¬ k = "optimized_power") (h2 : ¬ k = "optimized_data_rate") :
    (process_data recs).length = recs.length
    ∧ dictGet ((process_data recs).getD i []) "optimized_power"
        = Option.some (PyField.num (pyRound2 ((coupledPD (recs.getD i [])).1 * 0.9)))
    ∧ dictGet ((process_data recs).getD i []) "optimized_data_rate"
        = Option.some (PyField.num (pyRound2 ((coupledPD (recs.getD i [])).2 * 1.1)))
    ∧ dictGet ((process_data recs).getD i []) k = dictGet (recs.getD i []) k := by
  have hmap : (process_data recs).getD i [] = procOne (recs.getD i []) :=
    getD_map_of_lt procOne recs i [] [] hi
  refine ⟨by simp [process_data, List.length_map], ?_, ?_, ?_⟩
  · rw [hmap]
    unfold procOne
    rw [dictGet_dictSet_other _ _ _ _
        (by decide : ¬ ("optimized_power" : String) = "optimized_data_rate"),
      dictGet_dictSet_same]
  · rw [hmap]
    unfold procOne
    rw [dictGet_dictSet_same]
  · rw [hmap]
    unfold procOne
    rw [dictGet_dictSet_other _ _ _ _ h2, dictGet_dictSet_other _ _ _ _ h1]

/-- Witness for `process_data_amended_spec` on a one-record batch. -/
theorem process_data_amended_spec_witness :
    0 < ([[("speed", PyField.num 3)]] : List PyDict).length
    ∧ ¬ ("speed" : String) = "optimized_power"
    ∧ ¬ ("speed" : String) = "optimized_data_rate"
    ∧ ((process_data [[("speed", PyField.num 3)]]).length
          = ([[("speed", PyField.num 3)]] : List PyDict).length
       ∧ dictGet ((process_data [[("speed", PyField.num 3)]]).getD 0 []) "optimized_power"
          = Option.some (PyField.num (pyRound2
              ((coupledPD (([[("speed", PyField.num 3)]] : List PyDict).getD 0 [])).1 * 0.9)))
       ∧ dictGet ((process_data [[("speed", PyField.num 3)]]).getD 0 []) "optimized_data_rate"
          = Option.some (PyField.num (pyRound2
              ((coupledPD (([[("speed", PyField.num 3)]] : List PyDict).getD 0 [])).2 * 1.1)))
       ∧ dictGet ((process_data [[("speed", PyField.num 3)]]).getD 0 []) "speed"
          = dictGet (([[("speed", PyField.num 3)]] : List PyDict).getD 0 []) "speed") :=
  ⟨by decide, by decide, by decide,
   process_data_amended_spec [[("speed", PyField.num 3)]] 0 "speed"
     (by decide) (by decide) (by decide)⟩
